import Mathlib

set_option maxRecDepth 100000

/-!
Verification of the MPVScreensaver launcher (screensaver.py) against its
design specification.  The script is embedded shallowly: pure helpers become
Lean functions, and the effectful driver `main` is modelled as a function
from an explicit environment (filesystem contents, spawn successes, child
exit behaviour, interruption schedule) to the ordered list of external
effects it performs (notifications, prints, filesystem operations, process
operations) together with its termination outcome.
-/

namespace MPVScreensaver

/-! ## Filesystem model

Entries may be regular files or directories; `os.path.exists` is true for
any present entry, whatever its kind. -/

inductive FSEntry
  | file
  | dir
deriving DecidableEq

def FileSystem : Type := String → Option FSEntry

def os_path_exists (fs : FileSystem) (p : String) : Bool :=
  (fs p).isSome

/-! ## Desktop notifications

Embedding of `send_notification`: the script shells out to `notify-send -a
app -u urgency message`; we record the call's arguments. -/

structure Notification where
  appName : String
  urgency : String
  message : String
deriving DecidableEq

def send_notification (message : String) (urgent : Bool) : Notification :=
  { appName := "MPVScreensaver"
    urgency := if urgent then "critical" else "normal"
    message := message }

/-! ## Python string primitives

Lean's own `String.replace` and `String.splitOn` are defined by well-founded
recursion and do not reduce in the kernel, so we embed the two Python string
operations the script uses (`str.replace` on a non-empty pattern, and line
splitting) as structurally recursive functions on the character list. -/

/-- Character-level worker for `str.replace`: scan left to right, at each
position either consume a full pattern match (emitting the replacement) or
copy one character.  The fuel is the length of the scanned list, which each
step strictly decreases, so the fuel never runs out on the intended call. -/
def replaceAux (pat rep : List Char) : Nat → List Char → List Char
  | 0, l => l
  | fuel + 1, l =>
    match l with
    | [] => []
    | c :: cs =>
      if pat.isPrefixOf l then rep ++ replaceAux pat rep fuel (l.drop pat.length)
      else c :: replaceAux pat rep fuel cs

/-- Embedding of Python `s.replace(pat, rep)` for a non-empty pattern:
every occurrence of `pat` in `s`, scanning left to right, is replaced. -/
def pyReplace (s pat rep : String) : String :=
  ⟨replaceAux pat.data rep.data s.data.length s.data⟩

/-- Worker for line splitting: accumulate the current line (reversed). -/
def splitLinesAux : List Char → List Char → List String
  | [], acc => [⟨acc.reverse⟩]
  | c :: cs, acc =>
    if c = '\n' then ⟨acc.reverse⟩ :: splitLinesAux cs []
    else splitLinesAux cs (c :: acc)

/-- Lines of a document, splitting at every newline and keeping empty
segments (the semantics of `String.splitOn "\n"`). -/
def linesOf (s : String) : List String :=
  splitLinesAux s.data []

/-! ## Static configuration data (CONFIG SECTION of the script)

`MPV_CONF` and `INPUT_CONF` are the two document templates.  `DISPLAYS` and
`VIDEO_PATH` are user-editable constants; they are modelled as an explicit
configuration record so the theorems quantify over every possible setting. -/

def MPV_CONF : String := "
hwdec=no
loop-playlist=inf
image-display-duration=7
ao=null
fullscreen=yes
ontop
osc=no
osd-level=0
vo=gpu-next
input-default-bindings=no
cursor-autohide=always
title=\"MPVScreensaver\"
stop-screensaver=no
"

def INPUT_CONF : String := "
MOUSE_MOVE ignore
MOUSE_ENTER ignore
MOUSE_LEAVE ignore
MBTN_LEFT quit
MBTN_RIGHT quit
UNMAPPED keybind UNMAPPED quit
"

structure Config where
  DISPLAYS : List Nat
  VIDEO_PATH : List String

/-- Embedding of `adjust_mpv_conf`: return `MPV_CONF` with `loop-playlist`
replaced by `loop` if there is only one video. -/
def adjust_mpv_conf (video_count : Nat) : String :=
  if video_count = 1 then pyReplace MPV_CONF "loop-playlist=inf" "loop=inf"
  else MPV_CONF

/-! ## Input resolution (`parse_arguments`)

The filtering loop keeps existing paths in order and sends a capped number
of notifications for missing ones; the cap counter threads through the
loop exactly as `notifications_sent` does in the script. -/

def filterVideosLoop (fs : FileSystem) :
    List String → Nat → List String × List Notification
  | [], _ => ([], [])
  | file :: rest, notifications_sent =>
    if os_path_exists fs file then
      let r := filterVideosLoop fs rest notifications_sent
      (file :: r.1, r.2)
    else if notifications_sent < 3 then
      let r := filterVideosLoop fs rest (notifications_sent + 1)
      (r.1, send_notification ("File not found: " ++ file) false :: r.2)
    else
      filterVideosLoop fs rest notifications_sent

/-- Embedding of `parse_arguments`: the positional CLI paths are used when
non-empty (Python truthiness of `args.videos`), else the configured
`VIDEO_PATH`; the working list is then filtered.  Returns the valid videos
together with the notifications sent, in emission order. -/
def parse_arguments (cfg : Config) (fs : FileSystem) (argVideos : List String) :
    List String × List Notification :=
  let video_list := if argVideos.isEmpty then cfg.VIDEO_PATH else argVideos
  filterVideosLoop fs video_list 0

/-! ## Effect trace model for the driver

Each externally visible action of the script is one trace event.  Process
handles are identified by their index in the spawn order (the `i` of
`enumerate(DISPLAYS)`). -/

inductive Event
  | notify (n : Notification)
  | println (s : String)
  | mkdtemp (dir : String)
  | writeFile (path : String) (content : String)
  | spawn (cmd : List String) (pid : Nat)
  | terminate (pid : Nat)
  | wait (pid : Nat)
  | rmtree (dir : String)
deriving DecidableEq

/-- How the driver run ends: a normal return (process exit status 0), an
uncaught exception propagating out of `main`, or a monitoring loop that
never observes an exit cause within the modelled number of poll rounds. -/
inductive Outcome
  | exit0
  | raised
  | hung
deriving DecidableEq

/-- Cause that ends the monitoring loop: some child's `poll()` returned a
status (the `StopIteration` path), or a `KeyboardInterrupt` arrived. -/
inductive ExitCause
  | childExited
  | interrupted
deriving DecidableEq

/-- Environment of one run: filesystem contents, the unique directory name
chosen by `tempfile.mkdtemp`, whether `subprocess.Popen` succeeds for the
i-th display, the child exit statuses per poll round (`exited t pid` is
true when `proc.poll()` is not `None` at round `t`), the rounds at which a
`KeyboardInterrupt` is delivered, and a bound on the modelled poll rounds. -/
structure Env where
  fs : FileSystem
  tempDirName : String
  spawnOk : Nat → Bool
  exited : Nat → Nat → Bool
  interruptAt : Nat → Bool
  fuel : Nat

/-- Embedding of `create_temp_config_dir`: the directory name together with
the filesystem effects (create the directory, write the adjusted
`mpv.conf`, write the static `input.conf`). -/
def create_temp_config_dir (env : Env) (video_count : Nat) : String × List Event :=
  let temp_dir := env.tempDirName
  (temp_dir,
   [Event.mkdtemp temp_dir,
    Event.writeFile (temp_dir ++ "/mpv.conf") (adjust_mpv_conf video_count),
    Event.writeFile (temp_dir ++ "/input.conf") INPUT_CONF])

/-- Command line assembled for one display. -/
def mpv_cmd (config_dir : String) (display : Nat) (video_list : List String) :
    List String :=
  ["mpv", "--config-dir=" ++ config_dir, "--fs-screen=" ++ toString display] ++
    video_list

/-- Embedding of the `for i, display in enumerate(DISPLAYS)` launch loop.
In dry-run mode it only prints; otherwise it spawns each process in turn.
A `Popen` failure raises, which aborts the loop at once: the result is the
events so far and `none` (no process list to continue with).  On success
the spawned pids are returned in spawn order. -/
def spawnLoop (env : Env) (dry_run : Bool) (config_dir : String)
    (video_list : List String) : Nat → List Nat → List Event × Option (List Nat)
  | _, [] => ([], some [])
  | i, display :: rest =>
    let cmd := mpv_cmd config_dir display video_list
    if dry_run then
      let r := spawnLoop env dry_run config_dir video_list (i + 1) rest
      (Event.println ("Would launch mpv for display " ++ toString display ++
          " with " ++ toString video_list.length ++ " videos") ::
        Event.println ("Command: " ++ String.intercalate " " cmd) :: r.1,
       r.2)
    else if env.spawnOk i then
      let r := spawnLoop env dry_run config_dir video_list (i + 1) rest
      (Event.spawn cmd i ::
        Event.println ("Launched mpv for display " ++ toString display ++
          " with " ++ toString video_list.length ++ " videos") :: r.1,
       Option.map (fun pids => i :: pids) r.2)
    else
      ([], none)

/-- Embedding of the polling loop: at each round, if any child's `poll()`
reports an exit the loop stops with the `StopIteration` cause; a pending
`KeyboardInterrupt` stops it with the interruption cause; otherwise it
sleeps and polls again.  Returns the cause and the round at which the loop
stopped, or `none` when the modelled rounds are exhausted (a run in which
no child ever exits and no interrupt arrives). -/
def monitorLoop (env : Env) (pids : List Nat) : Nat → Nat → Option (ExitCause × Nat)
  | 0, _ => none
  | fuel + 1, t =>
    if pids.any (fun pid => env.exited t pid) then some (ExitCause.childExited, t)
    else if env.interruptAt t then some (ExitCause.interrupted, t)
    else monitorLoop env pids fuel (t + 1)

/-- Embedding of the `finally` block: terminate every process whose
`poll()` is still `None`, then wait on every process in order. -/
def teardownEvents (env : Env) (t : Nat) (pids : List Nat) : List Event :=
  (pids.filter (fun pid => !(env.exited t pid))).map Event.terminate ++
    pids.map Event.wait

/-- Coordinator phase of `main` (launch loop, monitoring loop and teardown,
without the final directory removal, which `main` performs afterwards). -/
def runCoordinator (cfg : Config) (env : Env) (config_dir : String)
    (video_list : List String) (dry_run : Bool) : List Event × Outcome :=
  let s := spawnLoop env dry_run config_dir video_list 0 cfg.DISPLAYS
  match s.2 with
  | none => (s.1, Outcome.raised)
  | some pids =>
    if pids.isEmpty then (s.1, Outcome.exit0)
    else
      match monitorLoop env pids env.fuel 0 with
      | none => (s.1, Outcome.hung)
      | some ct =>
        (s.1 ++
          (if ct.1 = ExitCause.interrupted then [Event.println "Interrupted by user"]
           else []) ++
          teardownEvents env ct.2 pids,
         Outcome.exit0)

/-- Embedding of `main`.  Note that `shutil.rmtree(config_dir)` sits at the
end of `main` with no enclosing `try`/`finally`: it runs only when the
coordinator phase returns normally, not when an exception propagates. -/
def main (cfg : Config) (env : Env) (argVideos : List String) (dry_run : Bool) :
    List Event × Outcome :=
  let parsed := parse_arguments cfg env.fs argVideos
  let video_list := parsed.1
  let ev0 := parsed.2.map Event.notify
  if video_list.isEmpty then
    (ev0 ++ [Event.notify (send_notification "No videos to play" true),
             Event.println "No videos to play"],
     Outcome.exit0)
  else
    let created := create_temp_config_dir env video_list.length
    let config_dir := created.1
    let ev1 := ev0 ++ created.2 ++
      [Event.println ("Temporary config directory: " ++ config_dir)]
    let run := runCoordinator cfg env config_dir video_list dry_run
    match run.2 with
    | Outcome.exit0 => (ev1 ++ run.1 ++ [Event.rmtree config_dir], Outcome.exit0)
    | o => (ev1 ++ run.1, o)

/-! ## Concrete instantiation data used by the witnesses -/

/-- Concrete filesystem used to instantiate the resolution theorems:
one regular file, one directory, everything else absent. -/
def fsW : FileSystem := fun p =>
  if p = "a.mp4" then some FSEntry.file
  else if p = "d" then some FSEntry.dir
  else none

/-- Concrete environment used to instantiate the lifecycle theorems: all
spawns succeed, every child reports exited at every poll round, no
interrupt arrives. -/
def envW : Env :=
  { fs := fsW
    tempDirName := "/tmp/mpvconfig_X"
    spawnOk := fun _ => true
    exited := fun _ _ => true
    interruptAt := fun _ => false
    fuel := 1 }

/-- Lines printed to standard output, in order. -/
def printedLines (tr : List Event) : List String :=
  tr.filterMap (fun e => match e with
    | Event.println s => some s
    | _ => none)

/-- Environment in which every spawn attempt raises (the player binary is
missing, say); children never matter because none is created. -/
def envFail : Env :=
  { fs := fsW
    tempDirName := "/tmp/mpvconfig_X"
    spawnOk := fun _ => false
    exited := fun _ _ => true
    interruptAt := fun _ => false
    fuel := 1 }

/-- Environment in which the spawn for display index 1 raises while every
other index would succeed. -/
def envFail2 : Env :=
  { fs := fsW
    tempDirName := "/tmp/mpvconfig_X"
    spawnOk := fun i => i != 1
    exited := fun _ _ => true
    interruptAt := fun _ => false
    fuel := 1 }

/-! ## Characterisation of the filtering loop -/

/-- The filtering loop returns the existing paths in order, and one
notification per missing path in input order, truncated to the remaining
budget. -/
theorem filterVideosLoop_spec (fs : FileSystem) (l : List String) (sent : Nat) :
    filterVideosLoop fs l sent =
      (l.filter (os_path_exists fs),
       ((l.filter (fun f => !(os_path_exists fs f))).take (3 - sent)).map
         (fun f => send_notification ("File not found: " ++ f) false)) := by
  induction l generalizing sent with
  | nil => simp [filterVideosLoop]
  | cons f rest ih =>
    by_cases h : os_path_exists fs f
    · simp [filterVideosLoop, h, ih]
    · by_cases h3 : sent < 3
      · have he : 3 - sent = (3 - (sent + 1)) + 1 := by omega
        simp [filterVideosLoop, h, h3, ih, he]
      · have he : 3 - sent = 0 := by omega
        simp [filterVideosLoop, h, h3, ih, he]

theorem string_data_append (a b : String) : (a ++ b).data = a.data ++ b.data := rfl

theorem string_append_left_cancel {a s t : String} (h : a ++ s = a ++ t) :
    s = t := by
  have h2 : (a ++ s).data = (a ++ t).data := by rw [h]
  rw [string_data_append, string_data_append] at h2
  exact String.ext (List.append_cancel_left h2)

/-- C4: for every candidate list (used as the working list, i.e. non-empty)
containing k missing files, resolution emits exactly min(k, 3)
notifications, each with message exactly "File not found: <path>" at normal
urgency, in input-list order; attempts past the budget of 3 are silently
dropped; and the returned list equals the input filtered to existing paths,
order preserved. -/
theorem C4_resolution_filter_and_budget (cfg : Config) (fs : FileSystem)
    (cand : List String) (h : cand ≠ []) :
    (parse_arguments cfg fs cand).1 = cand.filter (os_path_exists fs) ∧
    (parse_arguments cfg fs cand).2 =
      ((cand.filter (fun f => !(os_path_exists fs f))).take 3).map
        (fun f => { appName := "MPVScreensaver", urgency := "normal",
                    message := "File not found: " ++ f }) ∧
    (parse_arguments cfg fs cand).2.length =
      min ((cand.filter (fun f => !(os_path_exists fs f))).length) 3 := by
  have hne : cand.isEmpty = false := by
    cases cand with
    | nil => exact absurd rfl h
    | cons a l => rfl
  refine ⟨?_, ?_, ?_⟩ <;>
    simp [parse_arguments, hne, filterVideosLoop_spec, send_notification,
      List.length_take, Nat.min_comm]

/-- Witness for C4 at a five-element list with four missing files. -/
theorem C4_resolution_filter_and_budget_witness :
    (["a.mp4", "x1", "x2", "x3", "x4"] : List String) ≠ [] ∧
    ((parse_arguments ⟨[0], []⟩ fsW ["a.mp4", "x1", "x2", "x3", "x4"]).1 =
       (["a.mp4", "x1", "x2", "x3", "x4"].filter (os_path_exists fsW)) ∧
     (parse_arguments ⟨[0], []⟩ fsW ["a.mp4", "x1", "x2", "x3", "x4"]).2 =
       (((["a.mp4", "x1", "x2", "x3", "x4"].filter
           (fun f => !(os_path_exists fsW f))).take 3).map
         (fun f => { appName := "MPVScreensaver", urgency := "normal",
                     message := "File not found: " ++ f })) ∧
     (parse_arguments ⟨[0], []⟩ fsW ["a.mp4", "x1", "x2", "x3", "x4"]).2.length =
       min ((["a.mp4", "x1", "x2", "x3", "x4"].filter
         (fun f => !(os_path_exists fsW f))).length) 3) :=
  ⟨by decide, C4_resolution_filter_and_budget ⟨[0], []⟩ fsW _ (by decide)⟩

/-- C7: with an empty candidate list the fallback list becomes the working
list and the filtered fallback is returned (not unconditionally an empty
list); with a non-empty candidate list the fallback is ignored. -/
theorem C7_fallback_when_no_candidates (fs : FileSystem) (ds : List Nat)
    (fb fb2 : List String) (cand : List String) (h : cand ≠ []) :
    (parse_arguments ⟨ds, fb⟩ fs []).1 = fb.filter (os_path_exists fs) ∧
    parse_arguments ⟨ds, fb⟩ fs cand = parse_arguments ⟨ds, fb2⟩ fs cand := by
  have hne : cand.isEmpty = false := by
    cases cand with
    | nil => exact absurd rfl h
    | cons a l => rfl
  constructor
  · simp [parse_arguments, filterVideosLoop_spec]
  · simp [parse_arguments, hne]

/-- Witness for C7: fallback ["a.mp4", "zz"] filters to ["a.mp4"]. -/
theorem C7_fallback_when_no_candidates_witness :
    (["x1"] : List String) ≠ [] ∧
    ((parse_arguments ⟨[0], ["a.mp4", "zz"]⟩ fsW []).1 =
       (["a.mp4", "zz"].filter (os_path_exists fsW)) ∧
     parse_arguments ⟨[0], ["a.mp4", "zz"]⟩ fsW ["x1"] =
       parse_arguments ⟨[0], ["other"]⟩ fsW ["x1"]) :=
  ⟨by decide, C7_fallback_when_no_candidates fsW [0] ["a.mp4", "zz"] ["other"] ["x1"]
    (by decide)⟩

/-- C10: the existence check accepts any present entry, not only regular
files: a candidate path naming a directory survives filtering (and is thus
passed on to the player) and no notification is emitted for it. -/
theorem C10_directory_paths_survive (cfg : Config) (fs : FileSystem)
    (cand : List String) (p : String)
    (hdir : fs p = some FSEntry.dir) (hmem : p ∈ cand) :
    p ∈ (parse_arguments cfg fs cand).1 ∧
    ∀ n ∈ (parse_arguments cfg fs cand).2, n.message ≠ "File not found: " ++ p := by
  have hex : os_path_exists fs p = true := by simp [os_path_exists, hdir]
  have h : cand ≠ [] := List.ne_nil_of_mem hmem
  have hne : cand.isEmpty = false := by
    cases cand with
    | nil => exact absurd rfl h
    | cons a l => rfl
  constructor
  · simp [parse_arguments, hne, filterVideosLoop_spec, List.mem_filter, hmem, hex]
  · intro n hn
    simp only [parse_arguments, hne, filterVideosLoop_spec, List.mem_map,
      Bool.if_false_right] at hn
    obtain ⟨f, hf, hfn⟩ := hn
    have hfmem := List.mem_of_mem_take hf
    rw [List.mem_filter] at hfmem
    intro hmsg
    rw [← hfn] at hmsg
    simp only [send_notification, Bool.false_eq_true, if_neg] at hmsg
    have : f = p := string_append_left_cancel hmsg
    rw [this] at hfmem
    rw [hex] at hfmem
    simp at hfmem

/-- Witness for C10: the directory path "d" survives and draws no
notification while the missing path "x1" draws one. -/
theorem C10_directory_paths_survive_witness :
    fsW "d" = some FSEntry.dir ∧ "d" ∈ (["d", "x1"] : List String) ∧
    ("d" ∈ (parse_arguments ⟨[0], []⟩ fsW ["d", "x1"]).1 ∧
     ∀ n ∈ (parse_arguments ⟨[0], []⟩ fsW ["d", "x1"]).2,
       n.message ≠ "File not found: " ++ "d") :=
  ⟨by decide, by decide,
   C10_directory_paths_survive ⟨[0], []⟩ fsW ["d", "x1"] "d" (by decide) (by decide)⟩

/-- C5: the materialized settings document contains the single-item-loop
directive (loop=inf) iff the video count is 1 and the playlist-loop
directive (loop-playlist=inf) iff the count is not 1; the loop directive is
the line at index 2 and every other line is byte-identical across counts;
and the input-binding document written alongside it is the unchanged
INPUT_CONF whatever the count. -/
theorem C5_loop_directive_switch (n m : Nat) (env : Env) :
    ("loop=inf" ∈ linesOf (adjust_mpv_conf n) ↔ n = 1) ∧
    ("loop-playlist=inf" ∈ linesOf (adjust_mpv_conf n) ↔ n ≠ 1) ∧
    (linesOf (adjust_mpv_conf n)).get? 2 =
      some (if n = 1 then "loop=inf" else "loop-playlist=inf") ∧
    (linesOf (adjust_mpv_conf n)).set 2 "" =
      (linesOf (adjust_mpv_conf m)).set 2 "" ∧
    Event.writeFile (env.tempDirName ++ "/input.conf") INPUT_CONF ∈
      (create_temp_config_dir env n).2 ∧
    (∀ c, Event.writeFile (env.tempDirName ++ "/input.conf") c ∈
        (create_temp_config_dir env n).2 → c = INPUT_CONF) := by
  have en : ∀ k : Nat, k ≠ 1 → adjust_mpv_conf k = MPV_CONF := by
    intro k hk
    simp [adjust_mpv_conf, hk]
  refine ⟨?_, ?_, ?_, ?_, ?_, ?_⟩
  · rcases eq_or_ne n 1 with h | h
    · subst h
      exact iff_of_true (by decide) rfl
    · rw [en n h]
      exact iff_of_false (by decide) h
  · rcases eq_or_ne n 1 with h | h
    · subst h
      exact iff_of_false (by decide) (fun hh => hh rfl)
    · rw [en n h]
      exact iff_of_true (by decide) h
  · rcases eq_or_ne n 1 with h | h
    · subst h
      decide
    · rw [en n h, if_neg h]
      decide
  · rcases eq_or_ne n 1 with h | h <;> rcases eq_or_ne m 1 with h2 | h2
    · subst h; subst h2; rfl
    · subst h
      rw [en m h2]
      decide
    · subst h2
      rw [en n h]
      decide
    · rw [en n h, en m h2]
  · simp [create_temp_config_dir]
  · intro c hc
    simp only [create_temp_config_dir, List.mem_cons, List.mem_singleton,
      List.not_mem_nil, or_false] at hc
    rcases hc with hc | hc | hc
    · exact absurd hc (by simp)
    · rw [Event.writeFile.injEq] at hc
      have := string_append_left_cancel hc.1
      exact absurd this (by decide)
    · rw [Event.writeFile.injEq] at hc
      exact hc.2

/-- Witness for C5 at counts 1 and 2 and a concrete directory name. -/
theorem C5_loop_directive_switch_witness :
    ("loop=inf" ∈ linesOf (adjust_mpv_conf 1) ↔ (1 : Nat) = 1) ∧
    ("loop-playlist=inf" ∈ linesOf (adjust_mpv_conf 1) ↔ (1 : Nat) ≠ 1) ∧
    (linesOf (adjust_mpv_conf 1)).get? 2 =
      some (if (1 : Nat) = 1 then "loop=inf" else "loop-playlist=inf") ∧
    (linesOf (adjust_mpv_conf 1)).set 2 "" =
      (linesOf (adjust_mpv_conf 2)).set 2 "" ∧
    Event.writeFile ("/tmp/mpvconfig_X" ++ "/input.conf") INPUT_CONF ∈
      (create_temp_config_dir
        envW
        1).2 ∧
    (∀ c, Event.writeFile ("/tmp/mpvconfig_X" ++ "/input.conf") c ∈
        (create_temp_config_dir
          envW
          1).2 → c = INPUT_CONF) :=
  C5_loop_directive_switch 1 2
    envW

/-! ## Characterisation of the launch loop -/

theorem wait_injective : Function.Injective Event.wait := by
  intro a b h
  injection h

theorem terminate_injective : Function.Injective Event.terminate := by
  intro a b h
  injection h

/-- Launch loop in dry-run mode: two prints per display, no process list. -/
theorem spawnLoop_dry (env : Env) (config_dir : String) (video_list : List String) :
    ∀ (ds : List Nat) (i : Nat),
      spawnLoop env true config_dir video_list i ds =
        ((ds.map (fun d =>
          [Event.println ("Would launch mpv for display " ++ toString d ++
             " with " ++ toString video_list.length ++ " videos"),
           Event.println ("Command: " ++ String.intercalate " "
             (mpv_cmd config_dir d video_list))])).flatten,
         some []) := by
  intro ds
  induction ds with
  | nil => intro i; simp [spawnLoop]
  | cons d rest ih =>
    intro i
    simp [spawnLoop, ih (i + 1)]

/-- Launch loop when every spawn succeeds: a spawn and a print per display,
and the process list is the spawn-order indices. -/
theorem spawnLoop_all_ok (env : Env) (config_dir : String) (video_list : List String) :
    ∀ (ds : List Nat) (i : Nat),
      (∀ k, i ≤ k → k < i + ds.length → env.spawnOk k = true) →
      spawnLoop env false config_dir video_list i ds =
        ((((List.range' i ds.length).zip ds).map (fun q =>
            [Event.spawn (mpv_cmd config_dir q.2 video_list) q.1,
             Event.println ("Launched mpv for display " ++ toString q.2 ++
               " with " ++ toString video_list.length ++ " videos")])).flatten,
         some (List.range' i ds.length)) := by
  intro ds
  induction ds with
  | nil => intro i h; simp [spawnLoop]
  | cons d rest ih =>
    intro i h
    have hok : env.spawnOk i = true := h i (Nat.le_refl i) (by simp)
    have hrest := ih (i + 1) (fun k h1 h2 => h k (by omega) (by simp; omega))
    simp [spawnLoop, hok, hrest, List.range'_succ]

/-- Launch loop when the spawn for the j-th display fails after j
successes: the loop aborts at the failure (the `Popen` exception); only the
first j displays got a spawn event, and no process list is produced. -/
theorem spawnLoop_first_fail (env : Env) (config_dir : String)
    (video_list : List String) :
    ∀ (ds : List Nat) (i j : Nat), j < ds.length →
      (∀ k, i ≤ k → k < i + j → env.spawnOk k = true) →
      env.spawnOk (i + j) = false →
      (spawnLoop env false config_dir video_list i ds).2 = none ∧
      (∀ c p, Event.spawn c p ∈ (spawnLoop env false config_dir video_list i ds).1 →
        i ≤ p ∧ p < i + j) ∧
      ((spawnLoop env false config_dir video_list i ds).1.countP
        (fun e => match e with | Event.spawn _ _ => true | _ => false)) = j ∧
      (∀ e ∈ (spawnLoop env false config_dir video_list i ds).1,
        (∃ c p, e = Event.spawn c p) ∨ ∃ s, e = Event.println s) := by
  intro ds
  induction ds with
  | nil =>
    intro i j hj
    simp at hj
  | cons d rest ih =>
    intro i j hj hok hfail
    cases j with
    | zero =>
      have hi : env.spawnOk i = false := by simpa using hfail
      refine ⟨?_, ?_, ?_, ?_⟩ <;> simp [spawnLoop, hi]
    | succ j2 =>
      have hoki : env.spawnOk i = true := hok i (Nat.le_refl i) (by omega)
      have hfail2 : env.spawnOk (i + 1 + j2) = false := by
        have : i + 1 + j2 = i + (j2 + 1) := by omega
        rw [this]; exact hfail
      obtain ⟨h1, h2, h3, h4⟩ := ih (i + 1) j2 (by simpa using hj)
        (fun k hk1 hk2 => hok k (by omega) (by omega)) hfail2
      refine ⟨?_, ?_, ?_, ?_⟩
      · simp [spawnLoop, hoki, h1]
      · intro c p hp
        simp only [spawnLoop, hoki, if_true, Bool.false_eq_true, if_false,
          List.mem_cons] at hp
        rcases hp with hp | hp | hp
        · rw [Event.spawn.injEq] at hp
          omega
        · exact absurd hp (by simp)
        · have := h2 c p hp
          omega
      · simp only [spawnLoop, hoki, if_true, Bool.false_eq_true, if_false]
        rw [List.countP_cons_of_pos _ _ (by rfl), List.countP_cons_of_neg _ _ (by simp)]
        omega
      · intro e he
        simp only [spawnLoop, hoki, if_true, Bool.false_eq_true, if_false,
          List.mem_cons] at he
        rcases he with he | he | he
        · exact Or.inl ⟨_, _, he⟩
        · exact Or.inr ⟨_, he⟩
        · exact h4 e he

/-! ## Counting helpers for the teardown phase -/

theorem count_nodup (l : List Nat) (hnd : l.Nodup) (p : Nat) :
    l.count p = if p ∈ l then 1 else 0 := by
  by_cases hp : p ∈ l
  · rw [if_pos hp, List.count_eq_one_of_mem hnd hp]
  · rw [if_neg hp, List.count_eq_zero_of_not_mem hp]

theorem count_eq_zero_of_forall_ne {l : List Event} {a : Event}
    (h : ∀ e ∈ l, e ≠ a) : l.count a = 0 :=
  List.count_eq_zero_of_not_mem (fun hm => (h a hm) rfl)

/-- Teardown waits on every handle exactly once. -/
theorem teardown_count_wait (env : Env) (t : Nat) (pids : List Nat)
    (hnd : pids.Nodup) (p : Nat) :
    (teardownEvents env t pids).count (Event.wait p) =
      if p ∈ pids then 1 else 0 := by
  rw [teardownEvents, List.count_append]
  have hz : ((pids.filter (fun pid => !(env.exited t pid))).map
      Event.terminate).count (Event.wait p) = 0 :=
    List.count_eq_zero_of_not_mem (by simp)
  rw [hz, List.count_map_of_injective _ _ wait_injective, count_nodup pids hnd p]
  omega

/-- Teardown sends exactly one termination request to every handle still
reported running, none to an already-exited handle. -/
theorem teardown_count_terminate (env : Env) (t : Nat) (pids : List Nat)
    (hnd : pids.Nodup) (p : Nat) :
    (teardownEvents env t pids).count (Event.terminate p) =
      if p ∈ pids ∧ env.exited t p = false then 1 else 0 := by
  rw [teardownEvents, List.count_append]
  have hz : (pids.map Event.wait).count (Event.terminate p) = 0 :=
    List.count_eq_zero_of_not_mem (by simp)
  rw [hz, Nat.add_zero, List.count_map_of_injective _ _ terminate_injective]
  by_cases he : env.exited t p = false
  · rw [List.count_filter (by simp [he])]
    rw [count_nodup pids hnd p]
    by_cases hp : p ∈ pids <;> simp [hp, he]
  · have hnm : p ∉ pids.filter (fun pid => !(env.exited t pid)) := by
      intro hm
      rw [List.mem_filter] at hm
      simp at hm
      exact he hm.2
    rw [List.count_eq_zero_of_not_mem hnm, if_neg (fun hc => he hc.2)]

theorem teardown_no_rmtree (env : Env) (t : Nat) (pids : List Nat) (d : String) :
    Event.rmtree d ∉ teardownEvents env t pids := by
  simp [teardownEvents]

/-! ## Shape of the event prefix emitted before the coordinator phase -/

theorem prefix_events_shape (env : Env) (nl : List Notification) (k : Nat) :
    ∀ e ∈ nl.map Event.notify ++ (create_temp_config_dir env k).2 ++
        [Event.println ("Temporary config directory: " ++ env.tempDirName)],
      (∃ nn, e = Event.notify nn) ∨ (∃ d, e = Event.mkdtemp d) ∨
      (∃ pth ctn, e = Event.writeFile pth ctn) ∨ ∃ s, e = Event.println s := by
  intro e he
  simp only [create_temp_config_dir, List.mem_append, List.mem_map,
    List.mem_cons, List.not_mem_nil, or_false] at he
  aesop

/-- Events of the all-spawns-succeed launch loop are spawns and prints. -/
theorem all_ok_events_shape (config_dir : String) (video_list : List String)
    (l : List (Nat × Nat)) :
    ∀ e ∈ (l.map (fun q =>
        [Event.spawn (mpv_cmd config_dir q.2 video_list) q.1,
         Event.println ("Launched mpv for display " ++ toString q.2 ++
           " with " ++ toString video_list.length ++ " videos")])).flatten,
      (∃ c p, e = Event.spawn c p) ∨ ∃ s, e = Event.println s := by
  intro e he
  rw [List.mem_flatten] at he
  obtain ⟨ll, hll, hel⟩ := he
  rw [List.mem_map] at hll
  obtain ⟨q, _, rfl⟩ := hll
  simp only [List.mem_cons, List.not_mem_nil, or_false] at hel
  rcases hel with rfl | rfl
  · exact Or.inl ⟨_, _, rfl⟩
  · exact Or.inr ⟨_, rfl⟩

/-- Events of the dry-run launch loop are prints only. -/
theorem dry_events_shape (config_dir : String) (video_list : List String)
    (ds : List Nat) :
    ∀ e ∈ (ds.map (fun d =>
        [Event.println ("Would launch mpv for display " ++ toString d ++
           " with " ++ toString video_list.length ++ " videos"),
         Event.println ("Command: " ++ String.intercalate " "
           (mpv_cmd config_dir d video_list))])).flatten,
      ∃ s, e = Event.println s := by
  intro e he
  rw [List.mem_flatten] at he
  obtain ⟨ll, hll, hel⟩ := he
  rw [List.mem_map] at hll
  obtain ⟨d, _, rfl⟩ := hll
  simp only [List.mem_cons, List.not_mem_nil, or_false] at hel
  rcases hel with rfl | rfl
  · exact ⟨_, rfl⟩
  · exact ⟨_, rfl⟩

/-! ## Driver equations for the terminal scenarios -/

theorem isEmpty_false_of_ne_nil {α : Type} {l : List α} (h : l ≠ []) :
    l.isEmpty = false := by
  rw [← Bool.not_eq_true, List.isEmpty_iff]
  exact h

/-- Driver equation: empty resolved list (early no-op exit). -/
theorem main_eq_empty (cfg : Config) (env : Env) (argv : List String)
    (dry_run : Bool) (h : (parse_arguments cfg env.fs argv).1 = []) :
    main cfg env argv dry_run =
      ((parse_arguments cfg env.fs argv).2.map Event.notify ++
        [Event.notify (send_notification "No videos to play" true),
         Event.println "No videos to play"],
       Outcome.exit0) := by
  have hie : (parse_arguments cfg env.fs argv).1.isEmpty = true := by
    rw [List.isEmpty_iff]
    exact h
  simp [main, hie]

/-- Driver equation: dry run with a non-empty resolved list. -/
theorem main_eq_dry (cfg : Config) (env : Env) (argv : List String)
    (hne : (parse_arguments cfg env.fs argv).1 ≠ []) :
    main cfg env argv true =
      ((parse_arguments cfg env.fs argv).2.map Event.notify ++
        (create_temp_config_dir env (parse_arguments cfg env.fs argv).1.length).2 ++
        [Event.println ("Temporary config directory: " ++ env.tempDirName)] ++
        ((cfg.DISPLAYS.map (fun d =>
          [Event.println ("Would launch mpv for display " ++ toString d ++
             " with " ++ toString (parse_arguments cfg env.fs argv).1.length ++
             " videos"),
           Event.println ("Command: " ++ String.intercalate " "
             (mpv_cmd env.tempDirName d (parse_arguments cfg env.fs argv).1))])).flatten) ++
        [Event.rmtree env.tempDirName],
       Outcome.exit0) := by
  have hie := isEmpty_false_of_ne_nil hne
  simp [main, hie, runCoordinator, spawnLoop_dry, create_temp_config_dir]

/-- Driver equation: real run, all spawns succeed, at least one display,
and the monitoring loop observes an exit cause. -/
theorem main_eq_normal (cfg : Config) (env : Env) (argv : List String)
    (ct : ExitCause × Nat)
    (hne : (parse_arguments cfg env.fs argv).1 ≠ [])
    (hds : cfg.DISPLAYS ≠ [])
    (hok : ∀ k, k < cfg.DISPLAYS.length → env.spawnOk k = true)
    (hloop : monitorLoop env (List.range' 0 cfg.DISPLAYS.length) env.fuel 0 =
      some ct) :
    main cfg env argv false =
      ((parse_arguments cfg env.fs argv).2.map Event.notify ++
        (create_temp_config_dir env (parse_arguments cfg env.fs argv).1.length).2 ++
        [Event.println ("Temporary config directory: " ++ env.tempDirName)] ++
        ((((List.range' 0 cfg.DISPLAYS.length).zip cfg.DISPLAYS).map (fun q =>
            [Event.spawn (mpv_cmd env.tempDirName q.2
               (parse_arguments cfg env.fs argv).1) q.1,
             Event.println ("Launched mpv for display " ++ toString q.2 ++
               " with " ++ toString (parse_arguments cfg env.fs argv).1.length ++
               " videos")])).flatten ++
          (if ct.1 = ExitCause.interrupted then [Event.println "Interrupted by user"]
           else []) ++
          teardownEvents env ct.2 (List.range' 0 cfg.DISPLAYS.length)) ++
        [Event.rmtree env.tempDirName],
       Outcome.exit0) := by
  have hie := isEmpty_false_of_ne_nil hne
  have hok2 : ∀ k, 0 ≤ k → k < 0 + cfg.DISPLAYS.length → env.spawnOk k = true := by
    intro k h1 h2
    exact hok k (by omega)
  have hs := spawnLoop_all_ok env env.tempDirName
    (parse_arguments cfg env.fs argv).1 cfg.DISPLAYS 0 hok2
  have hpne : List.range' 0 cfg.DISPLAYS.length ≠ [] := by
    have hlen : cfg.DISPLAYS.length ≠ 0 := by
      intro hh
      exact hds (List.length_eq_zero.mp hh)
    simp [List.range'_eq_nil, hlen]
  have hpe := isEmpty_false_of_ne_nil hpne
  simp [main, hie, runCoordinator, create_temp_config_dir, hs, hpe, hloop]

/-- Driver equation: real run in which some spawn fails.  The `Popen`
exception propagates out of `main`: no teardown, no directory removal. -/
theorem main_eq_fail (cfg : Config) (env : Env) (argv : List String)
    (hne : (parse_arguments cfg env.fs argv).1 ≠ [])
    (hnone : (spawnLoop env false env.tempDirName
      (parse_arguments cfg env.fs argv).1 0 cfg.DISPLAYS).2 = none) :
    main cfg env argv false =
      ((parse_arguments cfg env.fs argv).2.map Event.notify ++
        (create_temp_config_dir env (parse_arguments cfg env.fs argv).1.length).2 ++
        [Event.println ("Temporary config directory: " ++ env.tempDirName)] ++
        (spawnLoop env false env.tempDirName
          (parse_arguments cfg env.fs argv).1 0 cfg.DISPLAYS).1,
       Outcome.raised) := by
  have hie := isEmpty_false_of_ne_nil hne
  simp [main, hie, runCoordinator, create_temp_config_dir, hnone]

/-- Driver equation: real run with an empty display list (no process is
created, the monitoring block is skipped, the directory is removed). -/
theorem main_eq_no_displays (cfg : Config) (env : Env) (argv : List String)
    (hne : (parse_arguments cfg env.fs argv).1 ≠ [])
    (hds : cfg.DISPLAYS = []) :
    main cfg env argv false =
      ((parse_arguments cfg env.fs argv).2.map Event.notify ++
        (create_temp_config_dir env (parse_arguments cfg env.fs argv).1.length).2 ++
        [Event.println ("Temporary config directory: " ++ env.tempDirName)] ++
        [Event.rmtree env.tempDirName],
       Outcome.exit0) := by
  have hie := isEmpty_false_of_ne_nil hne
  simp [main, hie, runCoordinator, hds, spawnLoop, create_temp_config_dir]

/-- Notification urgency is "normal" for everything `parse_arguments`
emits (only the driver's own "No videos to play" call is critical). -/
theorem parse_notifications_normal (cfg : Config) (fs : FileSystem)
    (argv : List String) :
    ∀ nn ∈ (parse_arguments cfg fs argv).2, nn.urgency = "normal" := by
  intro nn hnn
  simp only [parse_arguments, filterVideosLoop_spec, List.mem_map] at hnn
  obtain ⟨f, _, rfl⟩ := hnn
  rfl

/-- C6: whenever the resolved video list is empty, the driver emits exactly
one critical-urgency notification, namely "No videos to play", prints the
matching message, creates no config directory, spawns no process, and
returns normally (exit status 0). -/
theorem C6_empty_list_clean_exit (cfg : Config) (env : Env) (argv : List String)
    (dry_run : Bool) (h : (parse_arguments cfg env.fs argv).1 = []) :
    (main cfg env argv dry_run).1.countP (fun e => match e with
      | Event.notify nn => nn.urgency == "critical"
      | _ => false) = 1 ∧
    Event.notify ⟨"MPVScreensaver", "critical", "No videos to play"⟩ ∈
      (main cfg env argv dry_run).1 ∧
    Event.println "No videos to play" ∈ (main cfg env argv dry_run).1 ∧
    (∀ d, Event.mkdtemp d ∉ (main cfg env argv dry_run).1) ∧
    (∀ c p, Event.spawn c p ∉ (main cfg env argv dry_run).1) ∧
    (main cfg env argv dry_run).2 = Outcome.exit0 := by
  rw [main_eq_empty cfg env argv dry_run h]
  refine ⟨?_, ?_, ?_, ?_, ?_, rfl⟩
  · rw [List.countP_append, List.countP_map]
    have hz : (parse_arguments cfg env.fs argv).2.countP
        ((fun e => match e with
          | Event.notify nn => nn.urgency == "critical"
          | _ => false) ∘ Event.notify) = 0 := by
      rw [List.countP_eq_zero]
      intro nn hnn
      have := parse_notifications_normal cfg env.fs argv nn hnn
      simp [this]
    rw [hz]
    rfl
  · simp [send_notification]
  · simp
  · intro d
    simp
  · intro c p
    simp

/-- Witness for C6: no CLI paths and an empty fallback list. -/
theorem C6_empty_list_clean_exit_witness :
    (parse_arguments ⟨[0], []⟩
      envW.fs
      []).1 = [] ∧
    ((main ⟨[0], []⟩
        envW
        [] false).1.countP (fun e => match e with
          | Event.notify nn => nn.urgency == "critical"
          | _ => false) = 1 ∧
     Event.notify ⟨"MPVScreensaver", "critical", "No videos to play"⟩ ∈
       (main ⟨[0], []⟩
         envW
         [] false).1 ∧
     Event.println "No videos to play" ∈
       (main ⟨[0], []⟩
         envW
         [] false).1 ∧
     (∀ d, Event.mkdtemp d ∉
       (main ⟨[0], []⟩
         envW
         [] false).1) ∧
     (∀ c p, Event.spawn c p ∉
       (main ⟨[0], []⟩
         envW
         [] false).1) ∧
     (main ⟨[0], []⟩
       envW
       [] false).2 = Outcome.exit0) :=
  ⟨by decide, C6_empty_list_clean_exit ⟨[0], []⟩
    envW
    [] false (by decide)⟩

theorem getLast?_append_some {α : Type} (l1 : List α) {l2 : List α} {a : α}
    (h : l2.getLast? = some a) : (l1 ++ l2).getLast? = some a := by
  rw [List.getLast?_append, h]
  rfl

theorem printedLines_append (l1 l2 : List Event) :
    printedLines (l1 ++ l2) = printedLines l1 ++ printedLines l2 :=
  List.filterMap_append l1 l2 _

theorem printedLines_notify (nl : List Notification) :
    printedLines (nl.map Event.notify) = [] := by
  induction nl with
  | nil => rfl
  | cons nn rest ih => simp [printedLines] at ih ⊢

theorem printedLines_dry_flatten (w c : Nat → String) (ds : List Nat) :
    printedLines ((ds.map (fun d => [Event.println (w d),
        Event.println (c d)])).flatten) =
      (ds.map (fun d => [w d, c d])).flatten := by
  induction ds with
  | nil => rfl
  | cons d rest ih =>
    simp only [List.map_cons, List.flatten_cons]
    rw [printedLines_append, ih]
    rfl

theorem printedLines_create (env : Env) (k : Nat) :
    printedLines (create_temp_config_dir env k).2 = [] := rfl

theorem printedLines_println (s : String) : printedLines [Event.println s] = [s] := rfl

theorem printedLines_rmtree (d : String) : printedLines [Event.rmtree d] = [] := rfl

/-- Dry-run traces contain no spawn event. -/
theorem dry_run_no_spawn (cfg : Config) (env : Env) (argv : List String)
    (hne : (parse_arguments cfg env.fs argv).1 ≠ []) :
    ∀ c p, Event.spawn c p ∉ (main cfg env argv true).1 := by
  intro c p hmem
  simp only [main_eq_dry cfg env argv hne] at hmem
  rcases List.mem_append.mp hmem with hmem2 | h
  · rcases List.mem_append.mp hmem2 with hmem3 | h
    · rcases List.mem_append.mp hmem3 with hmem4 | h
      · rcases List.mem_append.mp hmem4 with h | h
        · simp at h
        · simp [create_temp_config_dir] at h
      · simp at h
    · obtain ⟨s, hs⟩ := dry_events_shape env.tempDirName _ cfg.DISPLAYS _ h
      exact absurd hs (by simp)
  · simp at h

/-- C9: in dry-run mode with a non-empty resolved list the driver still
creates the temporary config directory, writes both config documents into
it, and removes it before returning (its removal is the last effect), even
though no process is ever spawned. -/
theorem C9_dry_run_still_materializes (cfg : Config) (env : Env)
    (argv : List String) (hne : (parse_arguments cfg env.fs argv).1 ≠ []) :
    Event.mkdtemp env.tempDirName ∈ (main cfg env argv true).1 ∧
    Event.writeFile (env.tempDirName ++ "/mpv.conf")
      (adjust_mpv_conf (parse_arguments cfg env.fs argv).1.length) ∈
      (main cfg env argv true).1 ∧
    Event.writeFile (env.tempDirName ++ "/input.conf") INPUT_CONF ∈
      (main cfg env argv true).1 ∧
    (main cfg env argv true).1.getLast? = some (Event.rmtree env.tempDirName) ∧
    (∀ c p, Event.spawn c p ∉ (main cfg env argv true).1) ∧
    (main cfg env argv true).2 = Outcome.exit0 := by
  rw [main_eq_dry cfg env argv hne]
  refine ⟨?_, ?_, ?_, ?_, ?_, rfl⟩
  · simp [create_temp_config_dir]
  · simp [create_temp_config_dir]
  · simp [create_temp_config_dir]
  · exact List.getLast?_concat _
  · rw [← main_eq_dry cfg env argv hne]
    exact dry_run_no_spawn cfg env argv hne

/-- Witness for C9: one existing video, one display, dry run. -/
theorem C9_dry_run_still_materializes_witness :
    (parse_arguments ⟨[0], []⟩ envW.fs ["a.mp4"]).1 ≠ [] ∧
    (Event.mkdtemp envW.tempDirName ∈ (main ⟨[0], []⟩ envW ["a.mp4"] true).1 ∧
     Event.writeFile (envW.tempDirName ++ "/mpv.conf")
       (adjust_mpv_conf (parse_arguments ⟨[0], []⟩ envW.fs ["a.mp4"]).1.length) ∈
       (main ⟨[0], []⟩ envW ["a.mp4"] true).1 ∧
     Event.writeFile (envW.tempDirName ++ "/input.conf") INPUT_CONF ∈
       (main ⟨[0], []⟩ envW ["a.mp4"] true).1 ∧
     (main ⟨[0], []⟩ envW ["a.mp4"] true).1.getLast? =
       some (Event.rmtree envW.tempDirName) ∧
     (∀ c p, Event.spawn c p ∉ (main ⟨[0], []⟩ envW ["a.mp4"] true).1) ∧
     (main ⟨[0], []⟩ envW ["a.mp4"] true).2 = Outcome.exit0) :=
  ⟨by decide, C9_dry_run_still_materializes ⟨[0], []⟩ envW ["a.mp4"] (by decide)⟩

/-- C8: in dry-run mode with a non-empty resolved list, no process is
spawned and the printed output consists of the config-directory line
followed, for each configured display in configured order, by the
would-launch line and the full would-be invocation (binary name,
config-directory flag, display-target flag, and the video list as trailing
arguments). -/
theorem C8_dry_run_prints_invocations (cfg : Config) (env : Env)
    (argv : List String) (hne : (parse_arguments cfg env.fs argv).1 ≠ []) :
    (∀ c p, Event.spawn c p ∉ (main cfg env argv true).1) ∧
    printedLines (main cfg env argv true).1 =
      ("Temporary config directory: " ++ env.tempDirName) ::
        (cfg.DISPLAYS.map (fun d =>
          ["Would launch mpv for display " ++ toString d ++ " with " ++
             toString (parse_arguments cfg env.fs argv).1.length ++ " videos",
           "Command: " ++ String.intercalate " "
             (mpv_cmd env.tempDirName d (parse_arguments cfg env.fs argv).1)])).flatten := by
  constructor
  · exact dry_run_no_spawn cfg env argv hne
  · simp only [main_eq_dry cfg env argv hne]
    rw [printedLines_append, printedLines_append, printedLines_append,
      printedLines_append, printedLines_notify, printedLines_create,
      printedLines_println, printedLines_rmtree,
      printedLines_dry_flatten
        (fun d => "Would launch mpv for display " ++ toString d ++ " with " ++
          toString (parse_arguments cfg env.fs argv).1.length ++ " videos")
        (fun d => "Command: " ++ String.intercalate " "
          (mpv_cmd env.tempDirName d (parse_arguments cfg env.fs argv).1))
        cfg.DISPLAYS]
    simp

/-- Witness for C8: one existing video, two displays, dry run. -/
theorem C8_dry_run_prints_invocations_witness :
    (parse_arguments ⟨[0, 1], []⟩ envW.fs ["a.mp4"]).1 ≠ [] ∧
    ((∀ c p, Event.spawn c p ∉ (main ⟨[0, 1], []⟩ envW ["a.mp4"] true).1) ∧
     printedLines (main ⟨[0, 1], []⟩ envW ["a.mp4"] true).1 =
       ("Temporary config directory: " ++ envW.tempDirName) ::
         (([0, 1] : List Nat).map (fun d =>
           ["Would launch mpv for display " ++ toString d ++ " with " ++
              toString (parse_arguments ⟨[0, 1], []⟩ envW.fs ["a.mp4"]).1.length ++
              " videos",
            "Command: " ++ String.intercalate " "
              (mpv_cmd envW.tempDirName d
                (parse_arguments ⟨[0, 1], []⟩ envW.fs ["a.mp4"]).1)])).flatten) :=
  ⟨by decide, C8_dry_run_prints_invocations ⟨[0, 1], []⟩ envW ["a.mp4"] (by decide)⟩

/-- Wait, terminate, spawn and rmtree events never occur among the mapped
notification events. -/
theorem count_zero_notify_map (nl : List Notification) (a : Event)
    (ha : ∀ nn, a ≠ Event.notify nn) : (nl.map Event.notify).count a = 0 :=
  count_eq_zero_of_forall_ne (fun e he => by
    rcases List.mem_map.mp he with ⟨nn, _, rfl⟩
    exact Ne.symm (ha nn))

/-- Only the directory creation and the two document writes occur among
the config-materialisation events. -/
theorem count_zero_create (env : Env) (k : Nat) (a : Event)
    (ha : (∀ d, a ≠ Event.mkdtemp d) ∧ ∀ pth ctn, a ≠ Event.writeFile pth ctn) :
    ((create_temp_config_dir env k).2).count a = 0 :=
  count_eq_zero_of_forall_ne (fun e he => by
    simp only [create_temp_config_dir, List.mem_cons, List.not_mem_nil,
      or_false] at he
    rcases he with rfl | rfl | rfl
    · exact Ne.symm (ha.1 _)
    · exact Ne.symm (ha.2 _ _)
    · exact Ne.symm (ha.2 _ _))

theorem count_zero_singleton {a b : Event} (h : a ≠ b) : [b].count a = 0 :=
  List.count_eq_zero_of_not_mem (by simp [h])

/-- Wait, terminate and rmtree events never occur in the launch-loop
events of an all-spawns-succeed run. -/
theorem count_zero_spawn_part (config_dir : String) (video_list : List String)
    (l : List (Nat × Nat)) (a : Event)
    (ha : (∀ c p, a ≠ Event.spawn c p) ∧ ∀ s, a ≠ Event.println s) :
    ((l.map (fun q =>
        [Event.spawn (mpv_cmd config_dir q.2 video_list) q.1,
         Event.println ("Launched mpv for display " ++ toString q.2 ++
           " with " ++ toString video_list.length ++ " videos")])).flatten).count a
      = 0 := by
  apply count_eq_zero_of_forall_ne
  intro e he
  rcases all_ok_events_shape config_dir video_list l e he with ⟨c, p, rfl⟩ | ⟨s, rfl⟩
  · exact Ne.symm (ha.1 c p)
  · exact Ne.symm (ha.2 s)

theorem count_zero_interrupt (c : Prop) [Decidable c] (a : Event)
    (ha : ∀ s, a ≠ Event.println s) :
    (if c then [Event.println "Interrupted by user"] else []).count a = 0 := by
  by_cases hc : c
  · rw [if_pos hc]
    exact count_eq_zero_of_forall_ne (by
      intro e he
      simp only [List.mem_cons, List.not_mem_nil, or_false] at he
      rw [he]
      exact Ne.symm (ha _))
  · rw [if_neg hc]
    rfl

/-- C3: for every non-empty set of spawned handles, whatever cause ends the
monitoring loop (a child exited, or an interruption, which is caught and
not propagated), the coordinator performs the same teardown: one
termination request to exactly the handles still reported running, one wait
per created handle (reaped exactly once, never for a handle that was not
created), and the config directory is removed only after all of that — its
removal is the final effect — with a normal exit. -/
theorem C3_teardown_identical_and_complete (cfg : Config) (env : Env)
    (argv : List String) (ct : ExitCause × Nat)
    (hne : (parse_arguments cfg env.fs argv).1 ≠ [])
    (hds : cfg.DISPLAYS ≠ [])
    (hok : ∀ k, k < cfg.DISPLAYS.length → env.spawnOk k = true)
    (hloop : monitorLoop env (List.range' 0 cfg.DISPLAYS.length) env.fuel 0 =
      some ct) :
    (∀ p, (main cfg env argv false).1.count (Event.wait p) =
      if p < cfg.DISPLAYS.length then 1 else 0) ∧
    (∀ p, (main cfg env argv false).1.count (Event.terminate p) =
      if p < cfg.DISPLAYS.length ∧ env.exited ct.2 p = false then 1 else 0) ∧
    (main cfg env argv false).1.count (Event.rmtree env.tempDirName) = 1 ∧
    (main cfg env argv false).1.getLast? = some (Event.rmtree env.tempDirName) ∧
    (main cfg env argv false).2 = Outcome.exit0 := by
  have hnd : (List.range' 0 cfg.DISPLAYS.length).Nodup := List.nodup_range' 0 _
  refine ⟨?_, ?_, ?_, ?_, ?_⟩
  · intro p
    simp only [main_eq_normal cfg env argv ct hne hds hok hloop]
    rw [List.count_append, List.count_append, List.count_append, List.count_append,
      List.count_append, List.count_append,
      count_zero_notify_map _ _ (by simp),
      count_zero_create _ _ _ ⟨by simp, by simp⟩,
      count_zero_singleton (by simp),
      count_zero_spawn_part _ _ _ _ ⟨by simp, by simp⟩,
      count_zero_interrupt _ _ (by simp),
      count_zero_singleton (by simp),
      teardown_count_wait env ct.2 _ hnd p]
    simp [List.mem_range'_1]
  · intro p
    simp only [main_eq_normal cfg env argv ct hne hds hok hloop]
    rw [List.count_append, List.count_append, List.count_append, List.count_append,
      List.count_append, List.count_append,
      count_zero_notify_map _ _ (by simp),
      count_zero_create _ _ _ ⟨by simp, by simp⟩,
      count_zero_singleton (by simp),
      count_zero_spawn_part _ _ _ _ ⟨by simp, by simp⟩,
      count_zero_interrupt _ _ (by simp),
      count_zero_singleton (by simp),
      teardown_count_terminate env ct.2 _ hnd p]
    simp [List.mem_range'_1]
  · simp only [main_eq_normal cfg env argv ct hne hds hok hloop]
    rw [List.count_append, List.count_append, List.count_append, List.count_append,
      List.count_append, List.count_append,
      count_zero_notify_map _ _ (by simp),
      count_zero_create _ _ _ ⟨by simp, by simp⟩,
      count_zero_singleton (by simp),
      count_zero_spawn_part _ _ _ _ ⟨by simp, by simp⟩,
      count_zero_interrupt _ _ (by simp),
      List.count_eq_zero_of_not_mem (teardown_no_rmtree env ct.2 _ _)]
    simp
  · simp only [main_eq_normal cfg env argv ct hne hds hok hloop]
    exact List.getLast?_concat _
  · simp only [main_eq_normal cfg env argv ct hne hds hok hloop]

/-- Witness for C3: one display, the child reports exited at round 0. -/
theorem C3_teardown_identical_and_complete_witness :
    (parse_arguments ⟨[0], []⟩ envW.fs ["a.mp4"]).1 ≠ [] ∧
    (([0] : List Nat) ≠ []) ∧
    monitorLoop envW (List.range' 0 ([0] : List Nat).length) envW.fuel 0 =
      some (ExitCause.childExited, 0) ∧
    ((∀ p, (main ⟨[0], []⟩ envW ["a.mp4"] false).1.count (Event.wait p) =
       if p < ([0] : List Nat).length then 1 else 0) ∧
     (∀ p, (main ⟨[0], []⟩ envW ["a.mp4"] false).1.count (Event.terminate p) =
       if p < ([0] : List Nat).length ∧ envW.exited 0 p = false then 1 else 0) ∧
     (main ⟨[0], []⟩ envW ["a.mp4"] false).1.count
       (Event.rmtree envW.tempDirName) = 1 ∧
     (main ⟨[0], []⟩ envW ["a.mp4"] false).1.getLast? =
       some (Event.rmtree envW.tempDirName) ∧
     (main ⟨[0], []⟩ envW ["a.mp4"] false).2 = Outcome.exit0) :=
  ⟨by decide, by decide, by decide,
   C3_teardown_identical_and_complete ⟨[0], []⟩ envW ["a.mp4"]
     (ExitCause.childExited, 0) (by decide) (by decide) (fun k _ => rfl) (by decide)⟩

/-- Counterexample to C1 as stated: with one display and a failing spawn,
the config directory is created but `main` propagates the exception and
never removes it — the removal event is absent from the trace. -/
theorem C1_counterexample :
    Event.mkdtemp "/tmp/mpvconfig_X" ∈ (main ⟨[0], []⟩ envFail ["a.mp4"] false).1 ∧
    Event.rmtree "/tmp/mpvconfig_X" ∉ (main ⟨[0], []⟩ envFail ["a.mp4"] false).1 ∧
    (main ⟨[0], []⟩ envFail ["a.mp4"] false).2 = Outcome.raised := by
  decide

/-- C1 (amended): when the resolved list is non-empty, the config directory
is removed — as the final effect, with a normal exit — on the dry-run path
and on every real path in which no spawn raises and the monitoring loop
(if entered) observes an exit cause: normal first-child-finish completion
and user interruption alike.  It is NOT removed when an unexpected failure
(such as a spawn failure) propagates out of the coordinator phase. -/
theorem C1_cleanup_on_nonraising_paths (cfg : Config) (env : Env)
    (argv : List String) (dry_run : Bool)
    (hne : (parse_arguments cfg env.fs argv).1 ≠ [])
    (hok : dry_run = true ∨
      ((∀ k, k < cfg.DISPLAYS.length → env.spawnOk k = true) ∧
       (cfg.DISPLAYS ≠ [] → ∃ ct,
         monitorLoop env (List.range' 0 cfg.DISPLAYS.length) env.fuel 0 =
           some ct))) :
    (main cfg env argv dry_run).1.getLast? = some (Event.rmtree env.tempDirName) ∧
    (main cfg env argv dry_run).2 = Outcome.exit0 := by
  by_cases hdry : dry_run = true
  · subst hdry
    rw [main_eq_dry cfg env argv hne]
    exact ⟨List.getLast?_concat _, rfl⟩
  · have hdf : dry_run = false := by
      cases dry_run
      · rfl
      · exact absurd rfl hdry
    subst hdf
    rcases hok with hok | ⟨hok, hml⟩
    · exact absurd hok hdry
    by_cases hds : cfg.DISPLAYS = []
    · rw [main_eq_no_displays cfg env argv hne hds]
      exact ⟨List.getLast?_concat _, rfl⟩
    · obtain ⟨ct, hloop⟩ := hml hds
      rw [main_eq_normal cfg env argv ct hne hds hok hloop]
      exact ⟨List.getLast?_concat _, rfl⟩

/-- Witness for the amended C1: the normal completion path. -/
theorem C1_cleanup_on_nonraising_paths_witness :
    (parse_arguments ⟨[0], []⟩ envW.fs ["a.mp4"]).1 ≠ [] ∧
    ((false = true) ∨
      ((∀ k, k < ([0] : List Nat).length → envW.spawnOk k = true) ∧
       (([0] : List Nat) ≠ [] → ∃ ct,
         monitorLoop envW (List.range' 0 ([0] : List Nat).length) envW.fuel 0 =
           some ct))) ∧
    ((main ⟨[0], []⟩ envW ["a.mp4"] false).1.getLast? =
       some (Event.rmtree envW.tempDirName) ∧
     (main ⟨[0], []⟩ envW ["a.mp4"] false).2 = Outcome.exit0) :=
  ⟨by decide,
   Or.inr ⟨fun k _ => rfl, fun _ => ⟨(ExitCause.childExited, 0), by decide⟩⟩,
   C1_cleanup_on_nonraising_paths ⟨[0], []⟩ envW ["a.mp4"] false (by decide)
     (Or.inr ⟨fun k _ => rfl, fun _ => ⟨(ExitCause.childExited, 0), by decide⟩⟩)⟩

/-- Counterexample to C2 as stated: displays [0, 1, 2], the spawn for
display 1 raises, display 2 would succeed.  Display 0 was spawned
successfully, yet the run fails; display 2 is never attempted. -/
theorem C2_counterexample :
    Event.spawn (mpv_cmd "/tmp/mpvconfig_X" 0 ["a.mp4"]) 0 ∈
      (main ⟨[0, 1, 2], []⟩ envFail2 ["a.mp4"] false).1 ∧
    envFail2.spawnOk 2 = true ∧
    Event.spawn (mpv_cmd "/tmp/mpvconfig_X" 2 ["a.mp4"]) 2 ∉
      (main ⟨[0, 1, 2], []⟩ envFail2 ["a.mp4"] false).1 ∧
    (main ⟨[0, 1, 2], []⟩ envFail2 ["a.mp4"] false).2 = Outcome.raised := by
  decide

/-- C2 (amended): a spawn failure for one display target raises an uncaught
exception that aborts the launch loop at once: exactly the targets before
the first failing one have been spawned, no later target is attempted, the
directory is not removed, and the whole run fails (the exception
propagates) even when earlier targets spawned successfully. -/
theorem C2_spawn_failure_aborts_run (cfg : Config) (env : Env)
    (argv : List String) (j : Nat)
    (hne : (parse_arguments cfg env.fs argv).1 ≠ [])
    (hj : j < cfg.DISPLAYS.length)
    (hokpre : ∀ k, k < j → env.spawnOk k = true)
    (hfail : env.spawnOk j = false) :
    (main cfg env argv false).2 = Outcome.raised ∧
    (∀ c p, Event.spawn c p ∈ (main cfg env argv false).1 → p < j) ∧
    ((main cfg env argv false).1.countP (fun e => match e with
      | Event.spawn _ _ => true
      | _ => false)) = j ∧
    (∀ d, Event.rmtree d ∉ (main cfg env argv false).1) := by
  obtain ⟨h1, h2, h3, h4⟩ := spawnLoop_first_fail env env.tempDirName
    (parse_arguments cfg env.fs argv).1 cfg.DISPLAYS 0 j hj
    (fun k hk1 hk2 => hokpre k (by omega)) (by simpa using hfail)
  refine ⟨?_, ?_, ?_, ?_⟩
  · simp only [main_eq_fail cfg env argv hne h1]
  · intro c p hp
    simp only [main_eq_fail cfg env argv hne h1] at hp
    rcases List.mem_append.mp hp with hp2 | h
    · rcases List.mem_append.mp hp2 with hp3 | h
      · rcases List.mem_append.mp hp3 with h | h
        · simp at h
        · simp [create_temp_config_dir] at h
      · simp at h
    · have := h2 c p h
      omega
  · simp only [main_eq_fail cfg env argv hne h1]
    rw [List.countP_append, List.countP_append, List.countP_append, h3,
      List.countP_map]
    rw [List.countP_eq_zero.mpr (fun nn _ => by simp [Function.comp]),
      List.countP_eq_zero.mpr (fun e he => by
        simp only [create_temp_config_dir, List.mem_cons, List.not_mem_nil,
          or_false] at he
        rcases he with rfl | rfl | rfl <;> simp),
      List.countP_eq_zero.mpr (fun e he => by
        simp only [List.mem_cons, List.not_mem_nil, or_false] at he
        simp [he])]
    omega
  · intro d hmem
    simp only [main_eq_fail cfg env argv hne h1] at hmem
    rcases List.mem_append.mp hmem with hp2 | h
    · rcases List.mem_append.mp hp2 with hp3 | h
      · rcases List.mem_append.mp hp3 with h | h
        · simp at h
        · simp [create_temp_config_dir] at h
      · simp at h
    · rcases h4 _ h with ⟨c, p, hc⟩ | ⟨s, hc⟩ <;> simp at hc

/-- Witness for the amended C2: displays [0, 1], first spawn succeeds,
second raises. -/
theorem C2_spawn_failure_aborts_run_witness :
    (parse_arguments ⟨[0, 1], []⟩ envFail2.fs ["a.mp4"]).1 ≠ [] ∧
    ((1 : Nat) < ([0, 1] : List Nat).length) ∧
    envFail2.spawnOk 1 = false ∧
    ((main ⟨[0, 1], []⟩ envFail2 ["a.mp4"] false).2 = Outcome.raised ∧
     (∀ c p, Event.spawn c p ∈ (main ⟨[0, 1], []⟩ envFail2 ["a.mp4"] false).1 →
       p < 1) ∧
     ((main ⟨[0, 1], []⟩ envFail2 ["a.mp4"] false).1.countP (fun e => match e with
       | Event.spawn _ _ => true
       | _ => false)) = 1 ∧
     (∀ d, Event.rmtree d ∉ (main ⟨[0, 1], []⟩ envFail2 ["a.mp4"] false).1)) :=
  ⟨by decide, by decide, by decide,
   C2_spawn_failure_aborts_run ⟨[0, 1], []⟩ envFail2 ["a.mp4"] 1 (by decide)
     (by decide)
     (fun k hk => by
       have hk0 : k = 0 := by omega
       subst hk0
       rfl)
     (by decide)⟩

end MPVScreensaver
